import Mathlib

/-!
Shallow embedding of `src/Indexing.ipynb`, a tutorial notebook that provisions
an Azure Cosmos DB database and container, bulk-loads documents, and issues
filter queries before and after changing the container's indexing policy.

The notebook itself is glue code over the Cosmos client SDK and the remote
service; the notebook's control flow (the try/except in cell-1, the bulk-load
loop in cell-3, the query-and-measure cells, the polling loop in cell-11) is
embedded directly from the source, while the behaviour of the remote service
(create/delete/query semantics, response headers) is modelled from the spec,
as indicated on each definition.
-/

namespace Indexing

/-- A document of the sample data set: `field1` is a random string and
`field2` a random integer (per the notebook's markdown describing
`indexing.json`). -/
structure Doc where
  field1 : String
  field2 : Int
deriving DecidableEq, Repr

/-- Indexing mode of a container's indexing policy. -/
inductive IndexingMode where
  | consistent
  | none
deriving DecidableEq, Repr

/-- An indexing policy: mode plus included/excluded property path patterns. -/
structure IndexingPolicy where
  indexingMode : IndexingMode
  includedPaths : List String
  excludedPaths : List String
deriving DecidableEq, Repr

/-- The default policy: consistent mode, index every path. -/
def defaultIndexingPolicy : IndexingPolicy :=
  { indexingMode := .consistent, includedPaths := ["/*"], excludedPaths := [] }

/-- The policy set by cell-7: indexing disabled. -/
def nonePolicy : IndexingPolicy :=
  { indexingMode := .none, includedPaths := [], excludedPaths := [] }

/-- The policy set by cell-11: everything indexed except `field2`. -/
def excludeField2Policy : IndexingPolicy :=
  { indexingMode := .consistent, includedPaths := ["/*"],
    excludedPaths := ["/field2/?"] }

/-- A container resource: id, partition key path, indexing policy and the
stored documents (in insertion order). -/
structure Container where
  id : String
  partitionKeyPath : String
  indexingPolicy : IndexingPolicy
  docs : List Doc
deriving DecidableEq, Repr

/-- A database resource: id and its containers. -/
structure Database where
  id : String
  containers : List Container
deriving DecidableEq, Repr

/-- The state of a Cosmos account: its databases. -/
structure Account where
  databases : List Database
deriving DecidableEq, Repr

/-- The error type raised by the Cosmos client
(`azure.cosmos.errors.CosmosHttpResponseError`), carrying an HTTP status. -/
structure CosmosHttpResponseError where
  status_code : Nat
deriving DecidableEq, Repr

/-- The database name used by the notebook (`db_name = "iddbtest"`). -/
def db_name : String := "iddbtest"

/-- The container name used by the notebook (`container_name = "idcltest"`). -/
def container_name : String := "idcltest"

/-- Modelled from the spec: `create_database` raises an HTTP 409 conflict
error when the database already exists, and otherwise creates an empty
database of that name. -/
def create_database (a : Account) (name : String) :
    Except CosmosHttpResponseError Account :=
  if a.databases.any (fun d => d.id == name) then
    .error { status_code := 409 }
  else
    .ok { databases := a.databases ++ [{ id := name, containers := [] }] }

/-- `get_database_client`: look up a database by id. -/
def findDatabase (a : Account) (name : String) : Option Database :=
  a.databases.find? (fun d => d.id == name)

/-- Write back the state of a database handle into the account. -/
def setDatabase (a : Account) (d : Database) : Account :=
  { databases := a.databases.map (fun d0 => if d0.id == d.id then d else d0) }

/-- Modelled from the spec: `list_containers` returns the database's
containers. -/
def Database.list_containers (d : Database) : List Container :=
  d.containers

/-- Modelled from the spec: `delete_container` removes every container with
the given id, raising HTTP 404 when none exists. -/
def Database.delete_container (d : Database) (name : String) :
    Except CosmosHttpResponseError Database :=
  if d.containers.any (fun c => c.id == name) then
    .ok { d with containers := d.containers.filter (fun c => c.id != name) }
  else
    .error { status_code := 404 }

/-- Modelled from the spec: `create_container` raises an HTTP 409 conflict
when a container with that id exists, and otherwise appends a fresh, empty
container carrying the default indexing policy. -/
def Database.create_container (d : Database) (name pkPath : String) :
    Except CosmosHttpResponseError Database :=
  if d.containers.any (fun c => c.id == name) then
    .error { status_code := 409 }
  else
    .ok { d with containers := d.containers ++
            [{ id := name, partitionKeyPath := pkPath,
               indexingPolicy := defaultIndexingPolicy, docs := [] }] }

/-- cell-1's try/except block: a `CosmosHttpResponseError` with status 409 is
swallowed (the computation continues with `fallback`); any other error is
re-raised. -/
def catchConflict {α : Type} (r : Except CosmosHttpResponseError α)
    (fallback : α) : Except CosmosHttpResponseError α :=
  match r with
  | .ok a => .ok a
  | .error e => if e.status_code == 409 then .ok fallback else .error e

/-- The service calls performed by the setup cell, abstracted so that each one
may fail with an arbitrary `CosmosHttpResponseError`.  `σ` is the account
state threaded through the calls; `list_containers` yields the container ids
visible to the `any` check. -/
structure SetupService (σ : Type) where
  create_database : σ → Except CosmosHttpResponseError σ
  list_containers : σ → List String
  delete_container : σ → Except CosmosHttpResponseError σ
  create_container : σ → Except CosmosHttpResponseError σ

/-- The part of cell-1 after the try/except: drop the container when one with
the target name is listed, then create it. -/
def setupAfterCatch {σ : Type} (ops : SetupService σ) (s : σ) :
    Except CosmosHttpResponseError σ := do
  let s2 ← if (ops.list_containers s).any (fun i => i == container_name) then
             ops.delete_container s
           else
             Except.ok s
  ops.create_container s2

/-- cell-1 in full: try to create the database, catching only the 409
conflict; then reset the container. -/
def setupWith {σ : Type} (ops : SetupService σ) (s : σ) :
    Except CosmosHttpResponseError σ := do
  let s1 ← catchConflict (ops.create_database s) s
  setupAfterCatch ops s1

/-- The concrete Cosmos service operations used by cell-1, instantiated on
`Account` states; each database-level call goes through the database handle
for `db_name` as the notebook does. -/
def cosmosSetupService : SetupService Account where
  create_database a := create_database a db_name
  list_containers a :=
    match findDatabase a db_name with
    | Option.none => []
    | Option.some d => d.list_containers.map (fun c => c.id)
  delete_container a :=
    match findDatabase a db_name with
    | Option.none => .error { status_code := 404 }
    | Option.some d => (d.delete_container container_name).map (setDatabase a)
  create_container a :=
    match findDatabase a db_name with
    | Option.none => .error { status_code := 404 }
    | Option.some d =>
        (d.create_container container_name "/id").map (setDatabase a)

/-- The setup step (cell-1) on a concrete account state. -/
def setupStep (a : Account) : Except CosmosHttpResponseError Account :=
  setupWith cosmosSetupService a

/-- Modelled from the spec: `create_item` appends the document to the
container, preserving insertion order. -/
def Container.create_item (c : Container) (d : Doc) : Container :=
  { c with docs := c.docs ++ [d] }

/-- The bulk-load loop of cell-3, abstracted over an insertion call that may
fail: insert each fetched document sequentially, stopping at the first error
(the loop has no retry or partial-failure handling, so a raised error aborts
the remaining inserts). -/
def bulkLoadWith {σ ε : Type} (create : σ → Doc → Except ε σ) :
    σ → List Doc → Except ε σ
  | s, [] => .ok s
  | s, d :: ds =>
    match create s d with
    | .error e => .error e
    | .ok s' => bulkLoadWith create s' ds

/-- The concrete insertion call used by cell-3. -/
def cosmos_create_item (c : Container) (d : Doc) :
    Except CosmosHttpResponseError Container :=
  .ok (c.create_item d)

/-- The bulk-load loop of cell-3 on a concrete container. -/
def bulkLoad (c : Container) (ds : List Doc) :
    Except CosmosHttpResponseError Container :=
  bulkLoadWith cosmos_create_item c ds

/-- Modelled from the spec: `SELECT * FROM c WHERE c.field1 = v` returns
exactly the stored documents whose `field1` equals `v` — query evaluation
reads the stored documents and never consults the indexing policy (the index
affects cost and latency only). -/
def queryField1 (c : Container) (v : String) : List Doc :=
  c.docs.filter (fun d => d.field1 == v)

/-- Modelled from the spec: `SELECT * FROM c WHERE c.field2 = v` returns
exactly the stored documents whose `field2` equals `v`, independently of the
indexing policy. -/
def queryField2 (c : Container) (v : Int) : List Doc :=
  c.docs.filter (fun d => d.field2 == v)

/-- Modelled from the spec: `replace_container` installs a new partition key
path and indexing policy on the container, leaving the stored documents
untouched. -/
def Container.replace_container (c : Container) (pkPath : String)
    (pol : IndexingPolicy) : Container :=
  { c with partitionKeyPath := pkPath, indexingPolicy := pol }

/-- One page of a `query_items` response: its items and the value of its
`x-ms-request-charge` response header. -/
structure PageResponse where
  items : List Doc
  requestCharge : String
deriving DecidableEq, Repr

/-- What a query-and-measure cell prints: the result count, the elapsed
wall-clock milliseconds, and a request charge. -/
structure QueryReport where
  resultCount : Nat
  elapsedMs : Nat
  requestCharge : String
deriving DecidableEq, Repr

/-- A query-and-measure cell (cells 5, 9, 13 and 15): issue the filter query
with `enable_cross_partition_query=True` against a paged service `svc`
(a function of the query text and the cross-partition flag), materialize the
complete result list between the two clock readings `t0` and `t1` (seconds),
and report the result count, the elapsed time, and the
`x-ms-request-charge` header of `last_response_headers` — i.e. of the final
page response only, or the pre-existing header value `prevCharge` when the
query produced no response. -/
def queryAndMeasure (svc : String → Bool → List PageResponse) (q : String)
    (t0 t1 : Nat) (prevCharge : String) : QueryReport :=
  let pages := svc q true
  let results := (pages.map PageResponse.items).flatten
  { resultCount := results.length
  , elapsedMs := (t1 - t0) * 1000
  , requestCharge :=
      match pages.getLast? with
      | Option.none => prevCharge
      | Option.some pg => pg.requestCharge }

/-- The polling loop of cell-11 over the stream `p` of index-transformation
progress percentages reported by successive `container_client.read` calls
(the `x-ms-documentdb-collection-index-transformation-progress` header,
modelled as the reported percentage).  The source performs one read before
the `while`, then re-reads after a fixed 5-second sleep as long as the last
read differs from 100.  The source loop has no iteration bound, so the
embedding supplies explicit fuel: `pollLoop p i fuel` returns the index of
the terminating read when the loop exits within `fuel` further iterations,
and `Option.none` when it does not. -/
def pollLoop (p : Nat → Nat) : Nat → Nat → Option Nat
  | i, fuel =>
    if p i = 100 then
      Option.some i
    else
      match fuel with
      | 0 => Option.none
      | Nat.succ f => pollLoop p (i + 1) f

/-! ### Helper lemmas -/

/-- Splitting the bulk-load loop at a list append. -/
theorem bulkLoadWith_append {σ ε : Type} (create : σ → Doc → Except ε σ)
    (l₁ l₂ : List Doc) (s : σ) :
    bulkLoadWith create s (l₁ ++ l₂) =
      (bulkLoadWith create s l₁).bind (fun s' => bulkLoadWith create s' l₂) := by
  induction l₁ generalizing s with
  | nil => simp [bulkLoadWith, Except.bind]
  | cons d ds ih =>
      simp only [List.cons_append, bulkLoadWith]
      cases h : create s d with
      | error e => simp [Except.bind]
      | ok s' => simpa using ih s'

/-- The concrete bulk load always succeeds and appends exactly the fetched
documents, in source order. -/
theorem bulkLoad_ok (c : Container) (ds : List Doc) :
    bulkLoad c ds = .ok { c with docs := c.docs ++ ds } := by
  induction ds generalizing c with
  | nil => simp [bulkLoad, bulkLoadWith]
  | cons d ds ih =>
      simp only [bulkLoad, bulkLoadWith, cosmos_create_item] at *
      rw [ih]
      simp [Container.create_item, List.append_assoc]

/-- A successful poll-loop run exits at the first read equal to 100. -/
theorem pollLoop_some (p : Nat → Nat) (fuel : Nat) :
    ∀ i k, pollLoop p i fuel = Option.some k →
      i ≤ k ∧ p k = 100 ∧ ∀ j, i ≤ j → j < k → p j ≠ 100 := by
  induction fuel with
  | zero =>
      intro i k h
      rw [pollLoop] at h
      by_cases h100 : p i = 100
      · simp [h100] at h
        subst h
        exact ⟨le_refl i, h100, fun j hij hji => absurd hij (Nat.not_le.mpr hji)⟩
      · simp [h100] at h
  | succ f ih =>
      intro i k h
      rw [pollLoop] at h
      by_cases h100 : p i = 100
      · simp [h100] at h
        subst h
        exact ⟨le_refl i, h100, fun j hij hji => absurd hij (Nat.not_le.mpr hji)⟩
      · simp [h100] at h
        obtain ⟨hik, hk, hfirst⟩ := ih (i + 1) k h
        refine ⟨Nat.le_of_succ_le hik, hk, fun j hij hjk => ?_⟩
        rcases Nat.eq_or_lt_of_le hij with rfl | hlt
        · exact h100
        · exact hfirst j hlt hjk

/-- If no read ever reports 100, the poll loop never exits, whatever the
fuel: the source loop, having no iteration bound or timeout, diverges. -/
theorem pollLoop_none (p : Nat → Nat) (hnever : ∀ n, p n ≠ 100) :
    ∀ fuel i, pollLoop p i fuel = Option.none := by
  intro fuel
  induction fuel with
  | zero => intro i; rw [pollLoop]; simp [hnever i]
  | succ f ih => intro i; rw [pollLoop]; simp [hnever i, ih (i + 1)]

/-- If some read reports 100, the poll loop exits with enough fuel. -/
theorem pollLoop_reaches (p : Nat → Nat) :
    ∀ fuel i, p (i + fuel) = 100 → ∃ k, pollLoop p i fuel = Option.some k := by
  intro fuel
  induction fuel with
  | zero =>
      intro i h
      exact ⟨i, by rw [pollLoop]; simp at h; simp [h]⟩
  | succ f ih =>
      intro i h
      by_cases h100 : p i = 100
      · exact ⟨i, by rw [pollLoop]; simp [h100]⟩
      · obtain ⟨k, hk⟩ := ih (i + 1) (by rw [show i + 1 + f = i + (f + 1) by omega]; exact h)
        exact ⟨k, by rw [pollLoop]; simp [h100, hk]⟩

theorem any_map_id (l : List Container) (p : String → Bool) :
    (l.map (fun c => c.id)).any p = l.any (fun c => p c.id) := by
  induction l with
  | nil => rfl
  | cons x xs ih => simp [ih]

theorem catchConflict_create_database (a : Account) :
    ∃ a1, catchConflict (create_database a db_name) a = .ok a1 ∧
      ∃ d ∈ a1.databases, d.id = db_name := by
  by_cases h : a.databases.any (fun d => d.id == db_name)
  · refine ⟨a, ?_, ?_⟩
    · simp [catchConflict, create_database, h]
    · simp only [List.any_eq_true] at h
      obtain ⟨d, hd, hid⟩ := h
      exact ⟨d, hd, by simpa using hid⟩
  · refine ⟨{ databases := a.databases ++ [⟨db_name, []⟩] }, ?_, ?_⟩
    · simp [catchConflict, create_database, h]
    · exact ⟨⟨db_name, []⟩, by simp, rfl⟩

theorem findDatabase_of_mem (a : Account) (n : String)
    (h : ∃ d ∈ a.databases, d.id = n) :
    ∃ d, findDatabase a n = Option.some d ∧ d.id = n := by
  obtain ⟨d, hmem, hid⟩ := h
  have hs : (a.databases.find? (fun d => d.id == n)).isSome := by
    rw [List.find?_isSome]
    exact ⟨d, hmem, by simp [hid]⟩
  obtain ⟨d', hd'⟩ := Option.isSome_iff_exists.mp hs
  exact ⟨d', hd', by simpa using List.find?_some hd'⟩

theorem find?_map_update (n : String) (d d' : Database) (hid : d'.id = d.id) :
    ∀ l : List Database, l.find? (fun x => x.id == n) = Option.some d →
      (l.map (fun x => if x.id == d'.id then d' else x)).find?
        (fun x => x.id == n) = Option.some d' := by
  intro l
  induction l with
  | nil => simp
  | cons x xs ih =>
      intro h
      have hdn : d.id = n := by simpa using List.find?_some h
      by_cases hx : x.id = n
      · rw [List.find?_cons_of_pos _ (by simp [hx])] at h
        injection h with h
        subst h
        simp only [List.map_cons]
        rw [if_pos (by simp [hid])]
        exact List.find?_cons_of_pos _ (by simp [hid, hdn])
      · rw [List.find?_cons_of_neg _ (by simp [hx])] at h
        simp only [List.map_cons]
        rw [if_neg (by simp [hid]; intro hc; exact hx (hc.trans hdn))]
        rw [List.find?_cons_of_neg _ (by simp [hx])]
        exact ih h

theorem findDatabase_setDatabase (a : Account) (n : String) (d d' : Database)
    (h : findDatabase a n = Option.some d) (hid : d'.id = d.id) :
    findDatabase (setDatabase a d') n = Option.some d' :=
  find?_map_update n d d' hid a.databases h

theorem any_filter_ne (l : List Container) (n : String) :
    (l.filter (fun c => c.id != n)).any (fun c => c.id == n) = false := by
  rw [List.any_eq_false]
  intro c hc
  rw [List.mem_filter] at hc
  simpa using hc.2

theorem find?_append_last (l : List Container) (x : Container)
    (p : Container → Bool) (hall : l.any p = false) (hx : p x = true) :
    (l ++ [x]).find? p = Option.some x := by
  induction l with
  | nil => simp [List.find?_cons_of_pos _ hx]
  | cons y ys ih =>
      rw [List.any_cons] at hall
      simp only [Bool.or_eq_false_iff] at hall
      rw [List.cons_append, List.find?_cons_of_neg _ (by simp [hall.1])]
      exact ih hall.2

theorem setupWith_catch_ok {σ : Type} (ops : SetupService σ) (s s1 : σ)
    (h : catchConflict (ops.create_database s) s = .ok s1) :
    setupWith ops s = setupAfterCatch ops s1 := by
  unfold setupWith
  rw [h]
  rfl

theorem setupAfterCatch_true {σ : Type} (ops : SetupService σ) (s : σ)
    (h : (ops.list_containers s).any (fun i => i == container_name) = true) :
    setupAfterCatch ops s =
      (ops.delete_container s).bind ops.create_container := by
  unfold setupAfterCatch
  rw [h]
  rfl

theorem setupAfterCatch_false {σ : Type} (ops : SetupService σ) (s : σ)
    (h : (ops.list_containers s).any (fun i => i == container_name) = false) :
    setupAfterCatch ops s = ops.create_container s := by
  unfold setupAfterCatch
  rw [h]
  rfl

theorem cosmos_list_containers (a : Account) (d : Database)
    (h : findDatabase a db_name = Option.some d) :
    cosmosSetupService.list_containers a =
      d.containers.map (fun c => c.id) := by
  simp [cosmosSetupService, h, Database.list_containers]

theorem cosmos_delete_eq (a : Account) (d d' : Database)
    (h : findDatabase a db_name = Option.some d)
    (hdel : d.delete_container container_name = .ok d') :
    cosmosSetupService.delete_container a = .ok (setDatabase a d') := by
  simp [cosmosSetupService, h, hdel, Except.map]

theorem cosmos_create_eq (a : Account) (d d' : Database)
    (h : findDatabase a db_name = Option.some d)
    (hcr : d.create_container container_name "/id" = .ok d') :
    cosmosSetupService.create_container a = .ok (setDatabase a d') := by
  simp [cosmosSetupService, h, hcr, Except.map]

theorem delete_container_ok (d : Database)
    (hc : d.containers.any (fun c => c.id == container_name) = true) :
    ∃ d', d.delete_container container_name = .ok d' ∧ d'.id = d.id ∧
      d'.containers = d.containers.filter (fun c => c.id != container_name) := by
  unfold Database.delete_container
  rw [if_pos hc]
  exact ⟨_, rfl, rfl, rfl⟩

theorem create_container_ok (d : Database)
    (hc : d.containers.any (fun c => c.id == container_name) = false) :
    ∃ d', d.create_container container_name "/id" = .ok d' ∧ d'.id = d.id ∧
      d'.containers = d.containers ++
        [{ id := container_name, partitionKeyPath := "/id",
           indexingPolicy := defaultIndexingPolicy, docs := [] }] := by
  unfold Database.create_container
  rw [if_neg (by simp [hc])]
  exact ⟨_, rfl, rfl, rfl⟩

theorem setup_ok (a : Account) :
    ∃ a', setupStep a = .ok a' ∧
      ∃ d, findDatabase a' db_name = Option.some d ∧
        ∃ c, d.containers.find? (fun c0 => c0.id == container_name) =
              Option.some c ∧
          c.docs = [] ∧ c.indexingPolicy = defaultIndexingPolicy := by
  obtain ⟨a1, hcatch, hmem⟩ := catchConflict_create_database a
  obtain ⟨d, hfind, -⟩ := findDatabase_of_mem a1 db_name hmem
  have hstep : setupStep a = setupAfterCatch cosmosSetupService a1 :=
    setupWith_catch_ok cosmosSetupService a a1 hcatch
  have hlist := cosmos_list_containers a1 d hfind
  cases hc : d.containers.any (fun c => c.id == container_name) with
  | true =>
      obtain ⟨d1, hdel, hd1id, hd1c⟩ := delete_container_ok d hc
      have hnoc : d1.containers.any (fun c => c.id == container_name) = false := by
        rw [hd1c]
        exact any_filter_ne _ _
      obtain ⟨d2, hcr, hd2id, hd2c⟩ := create_container_ok d1 hnoc
      have hdelA := cosmos_delete_eq a1 d d1 hfind hdel
      have hfind2 : findDatabase (setDatabase a1 d1) db_name = Option.some d1 :=
        findDatabase_setDatabase a1 db_name d d1 hfind hd1id
      have hcrA := cosmos_create_eq (setDatabase a1 d1) d1 d2 hfind2 hcr
      refine ⟨setDatabase (setDatabase a1 d1) d2, ?_, d2,
        findDatabase_setDatabase _ db_name d1 d2 hfind2 hd2id,
        ⟨container_name, "/id", defaultIndexingPolicy, []⟩, ?_, rfl, rfl⟩
      · rw [hstep,
          setupAfterCatch_true _ _ (by rw [hlist, any_map_id]; exact hc), hdelA]
        simpa [Except.bind] using hcrA
      · rw [hd2c]
        exact find?_append_last _ _ _ hnoc (by simp)
  | false =>
      obtain ⟨d2, hcr, hd2id, hd2c⟩ := create_container_ok d hc
      have hcrA := cosmos_create_eq a1 d d2 hfind hcr
      refine ⟨setDatabase a1 d2, ?_, d2,
        findDatabase_setDatabase a1 db_name d d2 hfind hd2id,
        ⟨container_name, "/id", defaultIndexingPolicy, []⟩, ?_, rfl, rfl⟩
      · rw [hstep,
          setupAfterCatch_false _ _ (by rw [hlist, any_map_id]; exact hc)]
        exact hcrA
      · rw [hd2c]
        exact find?_append_last _ _ _ hc (by simp)

/-! ### Claims -/

/-- C1: the fixed `field1 = "Mario86"` filter query returns the same result
set after the indexing policy is replaced by `indexingMode 'none'` (cell-7)
as before the change: disabling indexing never changes the set of documents
returned. -/
theorem none_policy_preserves_query_results (c : Container) :
    queryField1 (c.replace_container "/id" nonePolicy) "Mario86" =
      queryField1 c "Mario86" := rfl

/-- C8: after the policy replacement that excludes `/field2/?` (cell-11),
the `field2 = 3188` filter query still returns exactly the stored documents
whose `field2` equals 3188. -/
theorem excluded_path_query_still_correct (c : Container) :
    queryField2 (c.replace_container "/id" excludeField2Policy) 3188 =
      c.docs.filter (fun d => d.field2 == 3188) := rfl

/-- C3: the bulk-load loop inserts each fetched record exactly once,
sequentially and in source order, so a run that completes without error has
created exactly as many documents as there are fetched records; and the
first insertion failure aborts the whole load. -/
theorem bulk_load_complete_and_aborting :
    (∀ (c : Container) (ds : List Doc),
        bulkLoad c ds = .ok { c with docs := c.docs ++ ds })
    ∧ (∀ (c : Container) (ds : List Doc) (c' : Container), c.docs = [] →
        bulkLoad c ds = .ok c' → c'.docs = ds ∧ c'.docs.length = ds.length)
    ∧ (∀ {σ ε : Type} (create : σ → Doc → Except ε σ) (s s1 : σ)
        (pre : List Doc) (d : Doc) (post : List Doc) (e : ε),
        bulkLoadWith create s pre = .ok s1 → create s1 d = .error e →
        bulkLoadWith create s (pre ++ d :: post) = .error e) := by
  refine ⟨bulkLoad_ok, ?_, ?_⟩
  · intro c ds c' hempty hload
    rw [bulkLoad_ok] at hload
    injection hload with h
    subst h
    simp [hempty]
  · intro σ ε create s s1 pre d post e hpre hfail
    rw [bulkLoadWith_append, hpre]
    simp only [Except.bind, bulkLoadWith, hfail]

/-- Witness for C3 at concrete inputs. -/
theorem bulk_load_complete_and_aborting_witness :
    Indexing.bulkLoadWith (fun (_ : Nat) (_ : Doc) => Except.error 7) 0
        ([] ++ ⟨"Mario86", 3⟩ :: []) = Except.error 7 :=
  bulk_load_complete_and_aborting.2.2
    (fun (_ : Nat) (_ : Doc) => Except.error 7) 0 0 [] ⟨"Mario86", 3⟩ [] 7
    rfl rfl

/-- C4: the polling loop of cell-11 exits exactly at the first read whose
reported progress equals 100; if no read ever reports 100 it never exits
(there is no iteration bound or timeout); and if the service eventually
reports 100 it terminates. -/
theorem poll_loop_exit_characterisation :
    (∀ (p : Nat → Nat) (fuel i k : Nat), pollLoop p i fuel = Option.some k →
        p k = 100 ∧ i ≤ k ∧ ∀ j, i ≤ j → j < k → p j ≠ 100)
    ∧ (∀ (p : Nat → Nat), (∀ n, p n ≠ 100) →
        ∀ fuel i, pollLoop p i fuel = Option.none)
    ∧ (∀ (p : Nat → Nat) (N : Nat), p N = 100 →
        ∃ k, pollLoop p 0 N = Option.some k) := by
  refine ⟨?_, pollLoop_none, ?_⟩
  · intro p fuel i k h
    obtain ⟨hik, hk, hfirst⟩ := pollLoop_some p fuel i k h
    exact ⟨hk, hik, hfirst⟩
  · intro p N h
    exact pollLoop_reaches p N 0 (by simpa using h)

/-- Witness for C4 at a concrete progress stream. -/
theorem poll_loop_exit_characterisation_witness :
    ∃ k, pollLoop (fun _ => 100) 0 0 = Option.some k :=
  poll_loop_exit_characterisation.2.2 (fun _ => 100) 0 rfl

/-- C2: with the service's transformation-progress reports monotonically
non-decreasing and eventually reaching 100 (spec-modelled service
behaviour), the polling loop terminates, the successive reads it performs
are monotonically non-decreasing, and its final read reports 100. -/
theorem poll_progress_monotone_reaches_100 (p : Nat → Nat) (N : Nat)
    (hmono : ∀ i j, i ≤ j → p i ≤ p j) (h100 : p N = 100) :
    ∃ k, pollLoop p 0 N = Option.some k ∧ p k = 100 ∧
      ∀ i j, i ≤ j → j ≤ k → p i ≤ p j := by
  obtain ⟨k, hk⟩ := pollLoop_reaches p N 0 (by simpa using h100)
  obtain ⟨-, hk100, -⟩ := pollLoop_some p N 0 k hk
  exact ⟨k, hk, hk100, fun i j hij _ => hmono i j hij⟩

/-- Witness for C2 at a concrete progress stream. -/
theorem poll_progress_monotone_reaches_100_witness :
    ∃ k, pollLoop (fun n => min (40 * n) 100) 0 3 = Option.some k ∧
      (fun n => min (40 * n) 100) k = 100 ∧
      ∀ i j, i ≤ j → j ≤ k →
        (fun n => min (40 * n) 100) i ≤ (fun n => min (40 * n) 100) j :=
  poll_progress_monotone_reaches_100 (fun n => min (40 * n) 100) 3
    (fun i j hij => by
      simp only
      exact min_le_min (Nat.mul_le_mul_left 40 hij) (le_refl 100))
    (by norm_num)

/-- C7: with the documents loaded by the bulk-load step into the freshly
created (empty) container, the `field1 = "Mario86"` filter query returns
exactly the fetched records whose `field1` is `"Mario86"`, so its result
count equals the number of matching source records; the result is a function
of the source data, hence deterministic. -/
theorem field1_query_matches_source (c : Container) (ds : List Doc)
    (c' : Container) (hempty : c.docs = [])
    (hload : bulkLoad c ds = .ok c') :
    queryField1 c' "Mario86" = ds.filter (fun d => d.field1 == "Mario86") ∧
      (queryField1 c' "Mario86").length =
        (ds.filter (fun d => d.field1 == "Mario86")).length := by
  rw [bulkLoad_ok] at hload
  injection hload with h
  subst h
  simp [queryField1, hempty]

/-- Witness for C7 at a concrete source data set. -/
theorem field1_query_matches_source_witness :
    queryField1
        { id := "idcltest", partitionKeyPath := "/id",
          indexingPolicy := defaultIndexingPolicy,
          docs := [⟨"Mario86", 1⟩, ⟨"Garry75", 405⟩, ⟨"Mario86", 2⟩] }
        "Mario86" =
      List.filter (fun d => d.field1 == "Mario86")
        [⟨"Mario86", 1⟩, ⟨"Garry75", 405⟩, ⟨"Mario86", 2⟩] :=
  (field1_query_matches_source
    { id := "idcltest", partitionKeyPath := "/id",
      indexingPolicy := defaultIndexingPolicy, docs := [] }
    [⟨"Mario86", 1⟩, ⟨"Garry75", 405⟩, ⟨"Mario86", 2⟩]
    { id := "idcltest", partitionKeyPath := "/id",
      indexingPolicy := defaultIndexingPolicy,
      docs := [⟨"Mario86", 1⟩, ⟨"Garry75", 405⟩, ⟨"Mario86", 2⟩] }
    rfl rfl).1

/-- C9: a query-and-measure cell issues its query with cross-partition
search enabled, counts the fully materialized result list, reports the
elapsed time between the two clock readings surrounding the
materialization, and takes its request charge from the
`x-ms-request-charge` header of the final page response only. -/
theorem query_report_fields (svc : String → Bool → List PageResponse)
    (q : String) (t0 t1 : Nat) (prev : String) (ps : List PageResponse)
    (lastPg : PageResponse) (h : svc q true = ps ++ [lastPg]) :
    queryAndMeasure svc q t0 t1 prev =
      { resultCount := (((ps ++ [lastPg]).map PageResponse.items).flatten).length
      , elapsedMs := (t1 - t0) * 1000
      , requestCharge := lastPg.requestCharge } := by
  simp [queryAndMeasure, h]

/-- Witness for C9 at a concrete paged response. -/
theorem query_report_fields_witness :
    queryAndMeasure
        (fun _ _ => [{ items := [⟨"Mario86", 1⟩], requestCharge := "2.79" }])
        "q" 1 3 "0" =
      { resultCount :=
          (((([] ++
            ([{ items := [⟨"Mario86", 1⟩], requestCharge := "2.79" }] :
              List PageResponse))).map
            PageResponse.items).flatten).length
      , elapsedMs := (3 - 1) * 1000
      , requestCharge := "2.79" } :=
  query_report_fields
    (fun _ _ => ([{ items := [⟨"Mario86", 1⟩], requestCharge := "2.79" }] :
      List PageResponse))
    "q" 1 3 "0" []
    ({ items := [⟨"Mario86", 1⟩], requestCharge := "2.79" } : PageResponse) rfl

/-- C5: in the setup step, a `CosmosHttpResponseError` with status 409
raised by `create_database` is caught and execution continues (treated as
success); this is the only handled error — a create-database error of any
other status, and any error raised by the container listing's delete or
create calls, propagates and aborts the step. -/
theorem setup_only_handles_conflict {σ : Type} (ops : SetupService σ)
    (s : σ) :
    (∀ e, ops.create_database s = .error e → e.status_code ≠ 409 →
        setupWith ops s = .error e)
    ∧ (∀ e, ops.create_database s = .error e → e.status_code = 409 →
        setupWith ops s = setupAfterCatch ops s)
    ∧ (∀ s1, ops.create_database s = .ok s1 →
        setupWith ops s = setupAfterCatch ops s1)
    ∧ (∀ e,
        (ops.list_containers s).any (fun i => i == container_name) = true →
        ops.delete_container s = .error e → setupAfterCatch ops s = .error e)
    ∧ (∀ e s2,
        (ops.list_containers s).any (fun i => i == container_name) = true →
        ops.delete_container s = .ok s2 →
        ops.create_container s2 = .error e →
        setupAfterCatch ops s = .error e)
    ∧ (∀ e,
        (ops.list_containers s).any (fun i => i == container_name) = false →
        ops.create_container s = .error e →
        setupAfterCatch ops s = .error e) := by
  refine ⟨?_, ?_, ?_, ?_, ?_, ?_⟩
  · intro e he hne
    have hbeq : (e.status_code == 409) = false := by simpa using hne
    unfold setupWith
    rw [he]
    simp only [catchConflict]
    rw [hbeq, if_neg Bool.false_ne_true]
    rfl
  · intro e he h409
    exact setupWith_catch_ok ops s s (by simp [catchConflict, he, h409])
  · intro s1 h
    exact setupWith_catch_ok ops s s1 (by simp [catchConflict, h])
  · intro e hany hdel
    rw [setupAfterCatch_true ops s hany, hdel]
    rfl
  · intro e s2 hany hdel hcr
    rw [setupAfterCatch_true ops s hany, hdel]
    simpa [Except.bind] using hcr
  · intro e hany hcr
    rw [setupAfterCatch_false ops s hany]
    exact hcr

/-- Witness for C5: a 500 error from `create_database` propagates. -/
theorem setup_only_handles_conflict_witness :
    setupWith
        { create_database := fun (_ : Unit) =>
            Except.error { status_code := 500 }
        , list_containers := fun _ => []
        , delete_container := fun _ => Except.ok ()
        , create_container := fun _ => Except.ok () } () =
      Except.error { status_code := 500 } :=
  (setup_only_handles_conflict _ ()).1 { status_code := 500 } rfl (by decide)

/-- C6: the setup step tolerates already-existing resources — after one
successful run, running it a second time also completes without raising. -/
theorem setup_rerun_succeeds (a a' : Account) (h : setupStep a = .ok a') :
    ∃ a'', setupStep a' = .ok a'' := by
  obtain ⟨a'', h2, -⟩ := setup_ok a'
  exact ⟨a'', h2⟩

/-- Witness for C6: rerun after the first run on an empty account. -/
theorem setup_rerun_succeeds_witness :
    ∃ a'', setupStep
        { databases :=
            [{ id := "iddbtest",
               containers :=
                 [{ id := "idcltest", partitionKeyPath := "/id",
                    indexingPolicy := defaultIndexingPolicy, docs := [] }] }] } =
      .ok a'' :=
  setup_rerun_succeeds { databases := [] }
    { databases :=
        [{ id := "iddbtest",
           containers :=
             [{ id := "idcltest", partitionKeyPath := "/id",
                indexingPolicy := defaultIndexingPolicy, docs := [] }] }] }
    rfl

/-- C10: the setup step is not create-if-absent — whatever the prior state,
after it succeeds the target container exists and holds zero documents, so
any data loaded by a previous run has been discarded along with the dropped
container. -/
theorem setup_resets_container (a a' : Account)
    (h : setupStep a = .ok a') :
    ∃ d, findDatabase a' db_name = Option.some d ∧
      ∃ c, d.containers.find? (fun c0 => c0.id == container_name) =
            Option.some c ∧
        c.docs = [] := by
  obtain ⟨a'', h2, d, hd, c, hc, hdocs, -⟩ := setup_ok a
  rw [h] at h2
  injection h2 with h2
  subst h2
  exact ⟨d, hd, c, hc, hdocs⟩

/-- Witness for C10: a previously loaded container is reset to empty. -/
theorem setup_resets_container_witness :
    ∃ d, findDatabase
        { databases :=
            [{ id := "iddbtest",
               containers :=
                 [{ id := "idcltest", partitionKeyPath := "/id",
                    indexingPolicy := defaultIndexingPolicy, docs := [] }] }] }
        db_name = Option.some d ∧
      ∃ c, d.containers.find? (fun c0 => c0.id == container_name) =
            Option.some c ∧
        c.docs = [] :=
  setup_resets_container
    { databases :=
        [{ id := "iddbtest",
           containers :=
             [{ id := "idcltest", partitionKeyPath := "/id",
                indexingPolicy := defaultIndexingPolicy,
                docs := [⟨"Mario86", 1⟩] }] }] }
    { databases :=
        [{ id := "iddbtest",
           containers :=
             [{ id := "idcltest", partitionKeyPath := "/id",
                indexingPolicy := defaultIndexingPolicy, docs := [] }] }] }
    rfl

end Indexing
